import Mathlib

/-!
Verification of the authenticated API client and token-refresh coordination
logic of the expo-template repository.

The development shallowly embeds the TypeScript source:
* `src/src/services/errors.ts` — the error taxonomy (`ApiError` class hierarchy,
  `createApiError`, `formatErrorMessage`);
* `src/api/client.ts` — the axios request interceptor and the response/refresh
  interceptor with its module-level `isRefreshing` flag and `failedQueue`;
* the `AuthProvider.checkAuth` operation and the `getItem`/`getBoolean`
  storage helpers.

JavaScript runtime values that matter to the claims (null, undefined, strings,
native `Error`s, and the `ApiError` subclasses) are modelled by the inductive
`JsValue`; string truthiness (`""` is falsy) is modelled explicitly wherever
the source relies on it.
-/

namespace ExpoApi

/-- Response body shape `ApiErrorResponse` (`message?: string`,
`errors?: Record<string, string[]>`), with the record modelled as an
association list. -/
structure ApiErrorResponse where
  message : Option String
  errors : Option (List (String × List String))
deriving DecidableEq, Repr

/-- JavaScript runtime values relevant to the error-handling code: `null`,
`undefined`, strings, native `Error` objects (carrying a message), and
instances of the `ApiError` class hierarchy.  An `ApiError` instance carries
its class name tag, `statusCode`, `message`, optional `response` body and the
`originalError` cause (an omitted optional argument is `undefined`, modelled
by `JsValue.vundefined`). -/
inductive JsValue where
  | vnull
  | vundefined
  | vstr (s : String)
  | verror (message : String)
  | vapiError (name : String) (statusCode : Nat) (message : String)
      (resp : Option ApiErrorResponse) (cause : JsValue)
deriving DecidableEq, Repr

/-- JavaScript `a || b` for strings: `""` is falsy. -/
def jsOrString (a b : String) : String := if a = "" then b else a

/-- JavaScript `a?.message || b` where `a` is an optional response body. -/
def jsOrOptString (a : Option String) (b : String) : String :=
  match a with
  | some s => if s = "" then b else s
  | none => b

/-- `HTTP_STATUS` constants from `constants/api`. -/
def HTTP_STATUS_BAD_REQUEST : Nat := 400

/-- `HTTP_STATUS.UNAUTHORIZED`. -/
def HTTP_STATUS_UNAUTHORIZED : Nat := 401

/-- `HTTP_STATUS.FORBIDDEN`. -/
def HTTP_STATUS_FORBIDDEN : Nat := 403

/-- `HTTP_STATUS.NOT_FOUND`. -/
def HTTP_STATUS_NOT_FOUND : Nat := 404

/-- `HTTP_STATUS.CONFLICT`. -/
def HTTP_STATUS_CONFLICT : Nat := 409

/-- `HTTP_STATUS.INTERNAL_SERVER_ERROR`. -/
def HTTP_STATUS_INTERNAL_SERVER_ERROR : Nat := 500

/-- `new ApiError(statusCode, message, response?, originalError?)` — the base
class constructor; `this.name = 'ApiError'`. -/
def ApiErrorBase (statusCode : Nat) (message : String)
    (resp : Option ApiErrorResponse) (cause : JsValue) : JsValue :=
  JsValue.vapiError "ApiError" statusCode message resp cause

/-- `new BadRequestError(message, response?, originalError?)`. -/
def BadRequestError (message : String) (resp : Option ApiErrorResponse)
    (cause : JsValue) : JsValue :=
  JsValue.vapiError "BadRequestError" HTTP_STATUS_BAD_REQUEST message resp cause

/-- `new UnauthorizedError(message, response?, originalError?)`. -/
def UnauthorizedError (message : String) (resp : Option ApiErrorResponse)
    (cause : JsValue) : JsValue :=
  JsValue.vapiError "UnauthorizedError" HTTP_STATUS_UNAUTHORIZED message resp cause

/-- `new ForbiddenError(message, response?, originalError?)`. -/
def ForbiddenError (message : String) (resp : Option ApiErrorResponse)
    (cause : JsValue) : JsValue :=
  JsValue.vapiError "ForbiddenError" HTTP_STATUS_FORBIDDEN message resp cause

/-- `new NotFoundError(message, response?, originalError?)`. -/
def NotFoundError (message : String) (resp : Option ApiErrorResponse)
    (cause : JsValue) : JsValue :=
  JsValue.vapiError "NotFoundError" HTTP_STATUS_NOT_FOUND message resp cause

/-- `new ConflictError(message, response?, originalError?)`. -/
def ConflictError (message : String) (resp : Option ApiErrorResponse)
    (cause : JsValue) : JsValue :=
  JsValue.vapiError "ConflictError" HTTP_STATUS_CONFLICT message resp cause

/-- `new ServerError(message, response?, originalError?)`. -/
def ServerError (message : String) (resp : Option ApiErrorResponse)
    (cause : JsValue) : JsValue :=
  JsValue.vapiError "ServerError" HTTP_STATUS_INTERNAL_SERVER_ERROR message resp cause

/-- `new NetworkError(message, originalError?)` — `super(0, message, undefined, ...)`. -/
def NetworkError (message : String) (cause : JsValue) : JsValue :=
  JsValue.vapiError "NetworkError" 0 message none cause

/-- `new TimeoutError(message, originalError?)` — `super(0, message, undefined, ...)`. -/
def TimeoutError (message : String) (cause : JsValue) : JsValue :=
  JsValue.vapiError "TimeoutError" 0 message none cause

/-- `ApiError.getUserMessage()`:
`if (this.response?.message) return this.response.message;
return this.message || 'An unexpected error occurred';` —
JS truthiness, so an empty `response.message` falls through. -/
def getUserMessage (resp : Option ApiErrorResponse) (message : String) : String :=
  match resp with
  | some r =>
    match r.message with
    | some m => if m = "" then jsOrString message "An unexpected error occurred" else m
    | none => jsOrString message "An unexpected error occurred"
  | none => jsOrString message "An unexpected error occurred"

/-- `createApiError(statusCode, message, response?, originalError?)` —
the switch over `HTTP_STATUS` in `errors.ts`. -/
def createApiError (statusCode : Nat) (message : String)
    (resp : Option ApiErrorResponse) (cause : JsValue) : JsValue :=
  if statusCode = HTTP_STATUS_BAD_REQUEST then BadRequestError message resp cause
  else if statusCode = HTTP_STATUS_UNAUTHORIZED then UnauthorizedError message resp cause
  else if statusCode = HTTP_STATUS_FORBIDDEN then ForbiddenError message resp cause
  else if statusCode = HTTP_STATUS_NOT_FOUND then NotFoundError message resp cause
  else if statusCode = HTTP_STATUS_CONFLICT then ConflictError message resp cause
  else if statusCode = HTTP_STATUS_INTERNAL_SERVER_ERROR then ServerError message resp cause
  else ApiErrorBase statusCode message resp cause

/-- `formatErrorMessage(error)`: `error instanceof ApiError` →
`getUserMessage()`; `error instanceof Error` → `error.message`; otherwise the
generic string.  Total over all `JsValue`s. -/
def formatErrorMessage : JsValue → String
  | JsValue.vapiError _ _ message resp _ => getUserMessage resp message
  | JsValue.verror message => message
  | _ => "An unexpected error occurred"

/-- Class-name tag of an `ApiError` instance (`error.name`). -/
def errName : JsValue → Option String
  | JsValue.vapiError n _ _ _ _ => some n
  | _ => none

/-- `statusCode` field of an `ApiError` instance. -/
def errStatusCode : JsValue → Option Nat
  | JsValue.vapiError _ sc _ _ _ => some sc
  | _ => none

/-- `message` field of an `ApiError` instance. -/
def errMessage : JsValue → Option String
  | JsValue.vapiError _ _ m _ _ => some m
  | _ => none

/-- `response` field of an `ApiError` instance. -/
def errResp : JsValue → Option (Option ApiErrorResponse)
  | JsValue.vapiError _ _ _ r _ => some r
  | _ => none

/-- `originalError` field of an `ApiError` instance. -/
def errCause : JsValue → Option JsValue
  | JsValue.vapiError _ _ _ _ c => some c
  | _ => none

/-- Variant table exactly as the specification states it: BadRequest(400),
Unauthorized(401), Forbidden(403), NotFound(404), Conflict(409), Server(500),
generic `ApiError` for every other status code.  This definition follows the
spec's words, to be compared with `createApiError` (which follows the source). -/
def specVariantOf (statusCode : Nat) : String :=
  if statusCode = 400 then "BadRequestError"
  else if statusCode = 401 then "UnauthorizedError"
  else if statusCode = 403 then "ForbiddenError"
  else if statusCode = 404 then "NotFoundError"
  else if statusCode = 409 then "ConflictError"
  else if statusCode = 500 then "ServerError"
  else "ApiError"

/-- Substring occurrence on character lists; `leadTest xs ys` holds when `ys`
is an initial segment of `xs`. -/
def subAt : List Char → List Char → Bool
  | [], sub => sub.isEmpty
  | a :: rest, sub => leadTest (a :: rest) sub || subAt rest sub
where
  leadTest : List Char → List Char → Bool
    | _, [] => true
    | [], _ :: _ => false
    | a :: as1, b :: bs => a = b && leadTest as1 bs

/-- JavaScript `String.prototype.includes`. -/
def strContains (s sub : String) : Bool := subAt s.data sub.data

/-- Result of a Credential Store read at the AsyncStorage backend: a stored
value, no stored value, or a thrown backend error. -/
inductive ReadResult (α : Type) where
  | ok (a : α)
  | absent
  | failed
deriving DecidableEq, Repr

/-- `getItem<T>(key)` from `utils/storage`: returns the parsed stored value,
`null` (`none`) when the key is absent, and — because the `catch` block
returns `null` — also `none` when the backend read throws. -/
def getItem {α : Type} : ReadResult α → Option α
  | ReadResult.ok a => some a
  | ReadResult.absent => none
  | ReadResult.failed => none

/-- `getBoolean(key, defaultValue)` from `utils/storage`:
`value !== null ? value : defaultValue`. -/
def getBoolean (r : ReadResult Bool) (defaultValue : Bool) : Bool :=
  (getItem r).getD defaultValue

/-- An axios request config, restricted to the parts the interceptors read or
write: `url?`, the `Authorization` header value, the `_retry` marker
(`retryFlag`), and an identifier to track the request through the queue. -/
structure Req where
  id : Nat
  url : Option String
  authorization : Option String
  retryFlag : Bool
deriving DecidableEq, Repr

/-- The auth-endpoint test of the request interceptor:
`config.url?.includes('/auth/login') || … '/auth/signup' || … '/auth/refresh'`
(an absent url is falsy). -/
def isAuthEndpoint (url : Option String) : Bool :=
  match url with
  | some u =>
      strContains u "/auth/login" || strContains u "/auth/signup"
        || strContains u "/auth/refresh"
  | none => false

/-- The request interceptor of `createApiClient`: outside auth endpoints it
reads the access token from storage and, when the token is truthy, sets
`config.headers.Authorization = Bearer <token>` (the headers object of an
`InternalAxiosRequestConfig` is always present). -/
def requestInterceptor (tokenRead : ReadResult String) (config : Req) : Req :=
  if !isAuthEndpoint config.url then
    match getItem tokenRead with
    | some token =>
        if token ≠ "" then { config with authorization := some ("Bearer " ++ token) }
        else config
    | none => config
  else config

/-- The `User` interface of the auth context. -/
structure User where
  id : String
  email : String
  name : Option String
deriving DecidableEq, Repr

/-- Session State of the auth context: `isAuthenticated` and `user`. -/
structure Session where
  isAuthenticated : Bool
  user : Option User
deriving DecidableEq, Repr

/-- JS truthiness of a nullable string (`authToken` in `checkAuth`). -/
def tokenTruthy : Option String → Bool
  | some t => t ≠ ""
  | none => false

/-- `checkAuth` from the auth context: reads `isLoggedIn` (via `getBoolean`
with default `false`), `user` and `authToken` (via `getItem`) and sets the
session from the truthiness test `isLoggedIn && storedUser && authToken`.
`getItem` swallows backend failures, and the surrounding `try`/`catch` also
maps any thrown error to the unauthenticated session, so the operation is
total. -/
def checkAuth (lr : ReadResult Bool) (ur : ReadResult User)
    (tr : ReadResult String) : Session :=
  let isLoggedIn := getBoolean lr false
  let storedUser := getItem ur
  let authToken := getItem tr
  if isLoggedIn && storedUser.isSome && tokenTruthy authToken then
    { isAuthenticated := true, user := storedUser }
  else
    { isAuthenticated := false, user := none }

/-- The parts of an `AxiosError` the response interceptor reads:
`error.config` (the originating request), whether `error.response` is present,
and the response's `status` and `data`, plus `error.code` and
`error.message`. -/
structure AxiosErr where
  config : Req
  hasResponse : Bool
  status : Nat
  data : Option ApiErrorResponse
  code : Option String
  message : String
deriving DecidableEq, Repr

/-- Module-level refresh-coordination state of `client.ts`: the `isRefreshing`
flag and the `failedQueue` of pending continuations, each continuation closing
over its originating request config. -/
structure ClientState where
  isRefreshing : Bool
  failedQueue : List Req
deriving DecidableEq, Repr

/-- What the response-error interceptor decides to do with one error. -/
inductive Decision where
  | rejectTransport (e : JsValue)
  | queueIt
  | refreshIt (marked : Req)
  | rejectIt (e : JsValue)
deriving DecidableEq, Repr

/-- The response-error interceptor of `createApiClient`, up to the point where
control either rejects, enqueues, or enters the refresh `try` block.  Mirrors
the source: no-response errors map to Timeout/Network; a 401 on a not-yet
retried request enqueues when `isRefreshing` and otherwise marks the request
`_retry = true`, sets `isRefreshing = true` and begins the refresh; everything
else is mapped through `createApiError` with message
`data?.message || error.message || 'An error occurred'` and rejected. -/
def responseErrorInterceptor (st : ClientState) (e : AxiosErr) :
    ClientState × Decision :=
  if !e.hasResponse then
    if e.code = some "ECONNABORTED" || strContains e.message "timeout" then
      (st, Decision.rejectTransport
        (TimeoutError (formatErrorMessage (JsValue.verror e.message))
          (JsValue.verror e.message)))
    else
      (st, Decision.rejectTransport
        (NetworkError (formatErrorMessage (JsValue.verror e.message))
          (JsValue.verror e.message)))
  else if e.status = 401 && !e.config.retryFlag then
    if st.isRefreshing then
      ({ st with failedQueue := st.failedQueue ++ [e.config] }, Decision.queueIt)
    else
      ({ st with isRefreshing := true },
       Decision.refreshIt { e.config with retryFlag := true })
  else
    (st, Decision.rejectIt (createApiError e.status
      (jsOrOptString (e.data.bind ApiErrorResponse.message)
        (jsOrString e.message "An error occurred"))
      e.data (JsValue.verror e.message)))

/-- Observable events of one refresh cycle, in the order the code performs
them. -/
inductive Ev where
  | readKey (key : String)
  | refreshCall (sentToken : String)
  | persist (key : String) (value : String)
  | resolveQueued (id : Nat) (token : String)
  | rejectQueued (id : Nat) (e : JsValue)
  | removeKey (key : String)
  | dispatch (r : Req)
  | settleTrigger (e : JsValue)
deriving DecidableEq, Repr

/-- Outcome of the one refresh network call
(`axios.post(API_BASE_URL + /auth/refresh, { refreshToken })`). -/
inductive RefreshCallResult where
  | success (accessToken newRefreshToken : String)
  | failure (rawError : JsValue)
deriving DecidableEq, Repr

/-- Continuation of a queued request once resolved with a token:
`if (originalRequest.headers && token) … Authorization = Bearer token` —
the header is set only when the token is truthy, and `_retry` is untouched. -/
def queuedReplay (token : String) (r : Req) : Req :=
  if token ≠ "" then { r with authorization := some ("Bearer " ++ token) } else r

/-- Header update on the triggering request after a successful refresh:
`if (originalRequest.headers) … Authorization = Bearer accessToken`
(headers are always present on an internal config). -/
def triggerReplay (accessToken : String) (r : Req) : Req :=
  { r with authorization := some ("Bearer " ++ accessToken) }

/-- Success branch of the refresh `try` block: persist both tokens
(`Promise.all` of the two `setItem`s), set the trigger's header, resolve every
queued continuation with the new access token (`processQueue(null, token)`,
a `forEach` in queue order), return `client(originalRequest)` for the trigger,
and then each released continuation dispatches its own replay. -/
def refreshSuccessTrace (queue : List Req) (trigger : Req)
    (accessToken newRefreshToken : String) : List Ev :=
  [Ev.persist "authToken" accessToken, Ev.persist "refreshToken" newRefreshToken]
    ++ queue.map (fun r => Ev.resolveQueued r.id accessToken)
    ++ [Ev.dispatch (triggerReplay accessToken trigger)]
    ++ queue.map (fun r => Ev.dispatch (queuedReplay accessToken r))

/-- Failure (`catch`) branch of the refresh block: reject every queued
continuation with the caught `refreshError` itself
(`processQueue(refreshError, null)`), remove the four stored keys, and reject
the trigger with `new UnauthorizedError('Session expired. Please login
again.', data, refreshError)`.  The branch performs no Session State
mutation — the source only notes `// You can emit an event here to trigger
navigation to login` and rejects. -/
def refreshFailureTrace (queue : List Req) (refreshError : JsValue)
    (origData : Option ApiErrorResponse) : List Ev :=
  queue.map (fun r => Ev.rejectQueued r.id refreshError)
    ++ [Ev.removeKey "authToken", Ev.removeKey "refreshToken",
        Ev.removeKey "user", Ev.removeKey "isLoggedIn",
        Ev.settleTrigger (UnauthorizedError "Session expired. Please login again."
          origData refreshError)]

/-- The whole refresh `try`/`catch` block: read the stored refresh token; when
it is falsy, throw `UnauthorizedError('No refresh token available')` straight
into the catch branch without a network call; otherwise issue the one refresh
call and follow the success or failure branch. -/
def refreshBranch (queue : List Req) (trigger : Req)
    (storedRefreshToken : Option String) (call : RefreshCallResult)
    (origData : Option ApiErrorResponse) : List Ev :=
  Ev.readKey "refreshToken" ::
    (match storedRefreshToken with
     | none =>
        refreshFailureTrace queue
          (UnauthorizedError "No refresh token available" none JsValue.vundefined)
          origData
     | some tok =>
        if tok = "" then
          refreshFailureTrace queue
            (UnauthorizedError "No refresh token available" none JsValue.vundefined)
            origData
        else
          Ev.refreshCall tok ::
            (match call with
             | RefreshCallResult.success a r => refreshSuccessTrace queue trigger a r
             | RefreshCallResult.failure raw => refreshFailureTrace queue raw origData))

/-- State after the refresh settles: `processQueue` emptied `failedQueue` and
the `finally` block reset `isRefreshing`. -/
def refreshSettledState : ClientState := ⟨false, []⟩

/-- A 401 response error for request `r`, as axios delivers it. -/
def mk401 (data : Option ApiErrorResponse) (r : Req) : AxiosErr :=
  ⟨r, true, 401, data, none, "Request failed with status code 401"⟩

/-- Run the response-error interceptor over a burst of 401s that arrive while
the event loop processes them back to back. -/
def processBurst (data : Option ApiErrorResponse) :
    ClientState → List Req → ClientState × List Decision
  | st, [] => (st, [])
  | st, r :: rs =>
    let p := responseErrorInterceptor st (mk401 data r)
    let q := processBurst data p.1 rs
    (q.1, p.2 :: q.2)

/-- Ids of continuations released (resolved or rejected) by a trace, in
order. -/
def releasedIds (tr : List Ev) : List Nat :=
  tr.filterMap fun e =>
    match e with
    | Ev.resolveQueued i _ => some i
    | Ev.rejectQueued i _ => some i
    | _ => none

/-- Number of refresh network calls in a trace. -/
def refreshCallCount (tr : List Ev) : Nat :=
  tr.countP fun e =>
    match e with
    | Ev.refreshCall _ => true
    | _ => false

/-- Key/value pairs persisted by a trace, in order. -/
def persists (tr : List Ev) : List (String × String) :=
  tr.filterMap fun e =>
    match e with
    | Ev.persist k v => some (k, v)
    | _ => none

/-- Requests dispatched (replayed) by a trace, in order. -/
def dispatches (tr : List Ev) : List Req :=
  tr.filterMap fun e =>
    match e with
    | Ev.dispatch r => some r
    | _ => none

/-- Rejections delivered to queued continuations by a trace. -/
def queuedRejections (tr : List Ev) : List (Nat × JsValue) :=
  tr.filterMap fun e =>
    match e with
    | Ev.rejectQueued i x => some (i, x)
    | _ => none

/-- Errors with which the trigger's promise is rejected by a trace. -/
def triggerSettlements (tr : List Ev) : List JsValue :=
  tr.filterMap fun e =>
    match e with
    | Ev.settleTrigger x => some x
    | _ => none

/-- Whether a value is an instance of the `UnauthorizedError` class. -/
def isUnauthorizedKind : JsValue → Bool
  | JsValue.vapiError n _ _ _ _ => n = "UnauthorizedError"
  | _ => false

/-- All failure outcomes a refresh-cycle trace delivers to callers: the errors
given to queued continuations followed by the trigger's rejection. -/
def failureOutcomes (tr : List Ev) : List JsValue :=
  (queuedRejections tr).map Prod.snd ++ triggerSettlements tr

/-- The uniform-failure property claimed by the spec, as a decidable test on a
trace: every delivered failure is Unauthorized-kind and all of them are the
same error. -/
def uniformUnauthorizedFailure (tr : List Ev) : Bool :=
  (failureOutcomes tr).all isUnauthorizedKind &&
    (match failureOutcomes tr with
     | [] => true
     | e :: rest => rest.all (fun x => x = e))

/-- The Credential Store keys the refresh flow touches (`authToken`,
`refreshToken`, `user`, `isLoggedIn`); `none` means the key is absent. -/
structure Store where
  authToken : Option String
  refreshToken : Option String
  user : Option String
  isLoggedIn : Option Bool
deriving DecidableEq, Repr

/-- Store plus Session State, as observed around one refresh cycle. -/
structure World where
  store : Store
  session : Session
deriving DecidableEq, Repr

/-- Effect of one trace event on the world.  `setItem` writes the token keys,
`removeItem` deletes the four keys; every other event has no storage effect.
No event writes `session`: the refresh pipeline in `client.ts` performs no
Session State mutation (its catch branch only notes that an event could be
emitted there, and rejects). -/
def applyEv (w : World) : Ev → World
  | Ev.persist k v =>
      if k = "authToken" then { w with store := { w.store with authToken := some v } }
      else if k = "refreshToken" then
        { w with store := { w.store with refreshToken := some v } }
      else w
  | Ev.removeKey k =>
      if k = "authToken" then { w with store := { w.store with authToken := none } }
      else if k = "refreshToken" then
        { w with store := { w.store with refreshToken := none } }
      else if k = "user" then { w with store := { w.store with user := none } }
      else if k = "isLoggedIn" then
        { w with store := { w.store with isLoggedIn := none } }
      else w
  | _ => w

/-- Run a refresh-cycle trace over a world. -/
def runTrace (w : World) (tr : List Ev) : World := tr.foldl applyEv w

/-- C7: `createApiError` is a pure total function: for every
(statusCode, message, responseBody, cause) it returns the variant given by the
fixed table BadRequest(400), Unauthorized(401), Forbidden(403), NotFound(404),
Conflict(409), Server(500), and for every other status code the generic
`ApiError` variant carrying that raw status code unchanged; the message,
response body and cause are stored on the result in every case. -/
theorem createApiError_matches_variant_table (statusCode : Nat) (message : String)
    (resp : Option ApiErrorResponse) (cause : JsValue) :
    errName (createApiError statusCode message resp cause) = some (specVariantOf statusCode)
    ∧ errStatusCode (createApiError statusCode message resp cause) = some statusCode
    ∧ errMessage (createApiError statusCode message resp cause) = some message
    ∧ errResp (createApiError statusCode message resp cause) = some resp
    ∧ errCause (createApiError statusCode message resp cause) = some cause := by
  unfold createApiError specVariantOf
  unfold HTTP_STATUS_BAD_REQUEST HTTP_STATUS_UNAUTHORIZED HTTP_STATUS_FORBIDDEN
    HTTP_STATUS_NOT_FOUND HTTP_STATUS_CONFLICT HTTP_STATUS_INTERNAL_SERVER_ERROR
  split_ifs with h1 h2 h3 h4 h5 h6 <;>
    simp [BadRequestError, UnauthorizedError, ForbiddenError, NotFoundError,
      ConflictError, ServerError, ApiErrorBase, errName, errStatusCode,
      errMessage, errResp, errCause, HTTP_STATUS_BAD_REQUEST,
      HTTP_STATUS_UNAUTHORIZED, HTTP_STATUS_FORBIDDEN, HTTP_STATUS_NOT_FOUND,
      HTTP_STATUS_CONFLICT, HTTP_STATUS_INTERNAL_SERVER_ERROR] <;>
    omega

/-- C8: `formatErrorMessage` is total over every modelled input — null,
undefined, a plain string, a native error, a typed `ApiError` — and returns:
for an `ApiError`, its user message (the response body's message when present
and non-empty, else the constructed message); for any other `Error`, that
error's message; and the fixed generic string for everything else; in
particular `formatErrorMessage (createApiError 404 "x") = "x"`. -/
theorem formatErrorMessage_total_spec (s n m message : String) (sc : Nat)
    (resp respB : Option ApiErrorResponse) (cause : JsValue)
    (errs : Option (List (String × List String)))
    (hm : m ≠ "") (hmsg : message ≠ "")
    (hB : respB.bind ApiErrorResponse.message = none
          ∨ respB.bind ApiErrorResponse.message = some "") :
    formatErrorMessage JsValue.vnull = "An unexpected error occurred"
    ∧ formatErrorMessage JsValue.vundefined = "An unexpected error occurred"
    ∧ formatErrorMessage (JsValue.vstr s) = "An unexpected error occurred"
    ∧ formatErrorMessage (JsValue.verror s) = s
    ∧ formatErrorMessage (JsValue.vapiError n sc message resp cause)
        = getUserMessage resp message
    ∧ formatErrorMessage (createApiError sc message (some ⟨some m, errs⟩) cause) = m
    ∧ formatErrorMessage (createApiError sc message respB cause) = message
    ∧ formatErrorMessage (createApiError 404 "x" none JsValue.vundefined) = "x" := by
  refine ⟨rfl, rfl, rfl, rfl, rfl, ?_, ?_, rfl⟩
  · unfold createApiError
    split_ifs <;>
      simp [BadRequestError, UnauthorizedError, ForbiddenError, NotFoundError,
        ConflictError, ServerError, ApiErrorBase, formatErrorMessage,
        getUserMessage, hm]
  · unfold createApiError
    have hgo : getUserMessage respB message = message := by
      rcases respB with _ | r
      · simp [getUserMessage, jsOrString, hmsg]
      · rcases hr : r.message with _ | mm
        · simp [getUserMessage, hr, jsOrString, hmsg]
        · rcases hB with hB | hB <;> simp [hr] at hB
          simp [getUserMessage, hr, hB, jsOrString, hmsg]
    split_ifs <;>
      simp [BadRequestError, UnauthorizedError, ForbiddenError, NotFoundError,
        ConflictError, ServerError, ApiErrorBase, formatErrorMessage, hgo]

/-- Witness for C8 at concrete inputs. -/
theorem formatErrorMessage_total_spec_witness :
    formatErrorMessage (createApiError 418 "boom" (some ⟨some "srv", none⟩)
      JsValue.vundefined) = "srv" :=
  (formatErrorMessage_total_spec "s" "n" "srv" "boom" 418 none none
    JsValue.vundefined none (by decide) (by decide) (Or.inl rfl)).2.2.2.2.2.1

/-- C6: the request pipeline contract.  Auth-exempt URLs pass through with no
Authorization header set; otherwise a truthy stored token yields exactly
`Bearer <token>`; a failed or empty store read leaves the request untouched;
and the interceptor mutates nothing but the header. -/
theorem requestPipeline_contract (tokenRead : ReadResult String) (config : Req)
    (token : String) (htok : token ≠ "") :
    (isAuthEndpoint config.url = true → requestInterceptor tokenRead config = config)
    ∧ (isAuthEndpoint config.url = false → getItem tokenRead = some token →
        requestInterceptor tokenRead config
          = { config with authorization := some ("Bearer " ++ token) })
    ∧ (isAuthEndpoint config.url = false → getItem tokenRead = none →
        requestInterceptor tokenRead config = config)
    ∧ (requestInterceptor ReadResult.failed config = config)
    ∧ (requestInterceptor tokenRead config).url = config.url
    ∧ (requestInterceptor tokenRead config).retryFlag = config.retryFlag := by
  refine ⟨?_, ?_, ?_, ?_, ?_, ?_⟩
  · intro h; simp [requestInterceptor, h]
  · intro h hg; simp [requestInterceptor, h, hg, htok]
  · intro h hg; simp [requestInterceptor, h, hg]
  · simp [requestInterceptor, getItem]
  · unfold requestInterceptor
    split_ifs with h
    · rcases hg : getItem tokenRead with _ | t
      · simp
      · by_cases ht : t = "" <;> simp [ht]
    · rfl
  · unfold requestInterceptor
    split_ifs with h
    · rcases hg : getItem tokenRead with _ | t
      · simp
      · by_cases ht : t = "" <;> simp [ht]
    · rfl

/-- Witness for C6: a non-exempt request with a stored token gets exactly the
bearer header. -/
theorem requestPipeline_contract_witness :
    requestInterceptor (ReadResult.ok "T1") ⟨0, some "/users/me", none, false⟩
      = ⟨0, some "/users/me", some "Bearer T1", false⟩ :=
  (requestPipeline_contract (ReadResult.ok "T1") ⟨0, some "/users/me", none, false⟩
    "T1" (by decide)).2.1 (by decide) rfl

/-- C9: `checkAuth` sets the session to authenticated-with-the-stored-user
exactly when the logged-in flag, the cached user and the access token are all
present and truthy; in every other case, including any store read failure, it
sets `isAuthenticated = false` and `user = null`; the operation is a total
function of the three reads. -/
theorem checkAuth_postcondition (lr : ReadResult Bool) (ur : ReadResult User)
    (tr : ReadResult String) :
    (checkAuth lr ur tr = { isAuthenticated := true, user := getItem ur }
      ↔ (getBoolean lr false = true ∧ (getItem ur).isSome = true
          ∧ tokenTruthy (getItem tr) = true))
    ∧ (¬(getBoolean lr false = true ∧ (getItem ur).isSome = true
          ∧ tokenTruthy (getItem tr) = true) →
        checkAuth lr ur tr = { isAuthenticated := false, user := none })
    ∧ (lr = ReadResult.failed ∨ ur = ReadResult.failed ∨ tr = ReadResult.failed →
        checkAuth lr ur tr = { isAuthenticated := false, user := none }) := by
  have hsplit : (getBoolean lr false && (getItem ur).isSome
      && tokenTruthy (getItem tr)) = true
      ∨ (getBoolean lr false && (getItem ur).isSome
      && tokenTruthy (getItem tr)) = false := by
    rcases getBoolean lr false && (getItem ur).isSome && tokenTruthy (getItem tr)
      <;> simp
  refine ⟨?_, ?_, ?_⟩
  · constructor
    · intro h
      rcases hsplit with hc | hc
      · simp only [Bool.and_eq_true] at hc
        exact ⟨hc.1.1, hc.1.2, hc.2⟩
      · simp [checkAuth, hc] at h
    · intro ⟨h1, h2, h3⟩
      simp [checkAuth, h1, h2, h3]
  · intro hneg
    rcases hsplit with hc | hc
    · simp only [Bool.and_eq_true] at hc
      exact absurd ⟨hc.1.1, hc.1.2, hc.2⟩ hneg
    · simp [checkAuth, hc]
  · intro hfail
    have hfalse : (getBoolean lr false && (getItem ur).isSome
        && tokenTruthy (getItem tr)) = false := by
      rcases hfail with h | h | h <;> subst h <;>
        simp [getBoolean, getItem, tokenTruthy]
    simp [checkAuth, hfalse]

/-- Witness for C9: every read failing yields the unauthenticated session. -/
theorem checkAuth_postcondition_witness :
    checkAuth ReadResult.failed ReadResult.failed ReadResult.failed
      = { isAuthenticated := false, user := none } :=
  (checkAuth_postcondition ReadResult.failed ReadResult.failed
    ReadResult.failed).2.2 (Or.inl rfl)

/-- `filterMap` over a `map`, with the composite beta-reduced. -/
theorem filterMap_map_red {a b c : Type} (g : a -> b) (f : b -> Option c) (l : List a) :
    (l.map g).filterMap f = l.filterMap (fun x => f (g x)) := by
  induction l with
  | nil => rfl
  | cons x rest ih => simp [List.filterMap_cons, ih]

/-- `filterMap` of an everywhere-`some` function is a `map`. -/
theorem filterMap_someFun {a b : Type} (h : a -> b) (l : List a) :
    l.filterMap (fun x => some (h x)) = l.map h := by
  induction l with
  | nil => rfl
  | cons x rest ih => simp [List.filterMap_cons, ih]

/-- `filterMap` of an everywhere-`none` function is empty. -/
theorem filterMap_noneFun {a b : Type} (l : List a) :
    l.filterMap (fun _ => (none : Option b)) = [] := by
  induction l with
  | nil => rfl
  | cons x rest ih => simp [List.filterMap_cons, ih]

/-- A burst arriving while a refresh is already in flight is enqueued wholly,
in arrival order, with no further refresh started. -/
theorem processBurst_refreshing (data : Option ApiErrorResponse) (rs : List Req) :
    ∀ q : List Req, (∀ r ∈ rs, r.retryFlag = false) →
    processBurst data ⟨true, q⟩ rs
      = (⟨true, q ++ rs⟩, rs.map fun _ => Decision.queueIt) := by
  induction rs with
  | nil => intro q _; simp [processBurst]
  | cons x rest ih =>
    intro q h
    have hx : x.retryFlag = false := h x (by simp)
    have hrest : ∀ r ∈ rest, r.retryFlag = false := fun r hr => h r (by simp [hr])
    simp [processBurst, responseErrorInterceptor, mk401, hx, ih (q ++ [x]) hrest]

/-- C1: single-flight refresh coalescing.  In a burst of `N ≥ 2` concurrent
401s against the same expired token arriving while no refresh is in flight,
the first request alone starts the refresh cycle and issues exactly one
refresh network call; the remaining `N − 1` are enqueued on the pending
queue, and when the refresh settles (either way) their continuations are
released in arrival order. -/
theorem singleFlight_coalescing (t : Req) (rest : List Req)
    (data : Option ApiErrorResponse) (tok : String) (call : RefreshCallResult)
    (hN : rest ≠ []) (htok : tok ≠ "")
    (ht : t.retryFlag = false) (hrest : ∀ r ∈ rest, r.retryFlag = false) :
    (processBurst data ⟨false, []⟩ (t :: rest)).2
        = Decision.refreshIt { t with retryFlag := true }
            :: rest.map (fun _ => Decision.queueIt)
    ∧ (processBurst data ⟨false, []⟩ (t :: rest)).1 = ⟨true, rest⟩
    ∧ refreshCallCount (refreshBranch rest { t with retryFlag := true }
        (some tok) call data) = 1
    ∧ releasedIds (refreshBranch rest { t with retryFlag := true }
        (some tok) call data) = rest.map Req.id := by
  have hburst : processBurst data ⟨false, []⟩ (t :: rest)
      = (⟨true, rest⟩, Decision.refreshIt { t with retryFlag := true }
          :: rest.map fun _ => Decision.queueIt) := by
    simp [processBurst, responseErrorInterceptor, mk401, ht,
      processBurst_refreshing data rest [] hrest]
  refine ⟨by rw [hburst], by rw [hburst], ?_, ?_⟩
  · cases call <;>
      simp [refreshBranch, htok, refreshSuccessTrace, refreshFailureTrace,
        refreshCallCount, List.countP_append, List.countP_map, Function.comp,
        List.countP_eq_zero]
  · cases call <;>
      simp [refreshBranch, htok, refreshSuccessTrace, refreshFailureTrace,
        releasedIds, List.filterMap_append, List.filterMap_cons,
        Function.comp_def, filterMap_map_red, filterMap_someFun, filterMap_noneFun]

/-- Witness for C1 at a concrete two-request burst. -/
theorem singleFlight_coalescing_witness :
    releasedIds (refreshBranch [⟨2, some "/b", none, false⟩]
        { (⟨1, some "/a", none, false⟩ : Req) with retryFlag := true }
        (some "R0") (RefreshCallResult.success "T2" "R2") none) = [2] :=
  (singleFlight_coalescing ⟨1, some "/a", none, false⟩ [⟨2, some "/b", none, false⟩]
    none "R0" (RefreshCallResult.success "T2" "R2") (by decide) (by decide) rfl
    (by intro r hr; simp at hr; rw [hr])).2.2.2

/-- C5: retry-marker termination.  A 401 on a request already flagged
`_retry` never re-enters the refresh branch: the interceptor state is
untouched and the error is mapped once through `createApiError` — yielding
the typed `UnauthorizedError` — and rejected to the caller. -/
theorem retryMarker_terminates (st : ClientState) (r : Req)
    (data : Option ApiErrorResponse) (code : Option String) (msg : String)
    (hr : r.retryFlag = true) :
    responseErrorInterceptor st ⟨r, true, 401, data, code, msg⟩
      = (st, Decision.rejectIt (createApiError 401
          (jsOrOptString (data.bind ApiErrorResponse.message)
            (jsOrString msg "An error occurred"))
          data (JsValue.verror msg)))
    ∧ errName (createApiError 401
        (jsOrOptString (data.bind ApiErrorResponse.message)
          (jsOrString msg "An error occurred"))
        data (JsValue.verror msg)) = some "UnauthorizedError" := by
  constructor
  · simp [responseErrorInterceptor, hr]
  · simp [createApiError, HTTP_STATUS_BAD_REQUEST, HTTP_STATUS_UNAUTHORIZED,
      UnauthorizedError, errName]

/-- Witness for C5 at a concrete already-retried request. -/
theorem retryMarker_terminates_witness :
    responseErrorInterceptor ⟨false, []⟩
        ⟨⟨7, some "/me", none, true⟩, true, 401, none, none, "boom"⟩
      = (⟨false, []⟩, Decision.rejectIt (createApiError 401
          (jsOrOptString ((none : Option ApiErrorResponse).bind ApiErrorResponse.message)
            (jsOrString "boom" "An error occurred"))
          none (JsValue.verror "boom"))) :=
  (retryMarker_terminates ⟨false, []⟩ ⟨7, some "/me", none, true⟩ none none "boom"
    rfl).1

/-- C4: persist-before-replay ordering.  The successful refresh cycle's trace
splits into a prefix that dispatches nothing and persists exactly the new
access and refresh tokens, followed by a suffix that persists nothing and
dispatches the trigger's replay and every queued replay — each bearing the
new bearer token, never the stale one. -/
theorem persistBeforeReplay (queue : List Req) (trigger : Req) (tok a r : String)
    (data : Option ApiErrorResponse) (htok : tok ≠ "") (ha : a ≠ "") :
    ∃ pre post,
      refreshBranch queue trigger (some tok) (RefreshCallResult.success a r) data
        = pre ++ post
      ∧ dispatches pre = []
      ∧ persists pre = [("authToken", a), ("refreshToken", r)]
      ∧ persists post = []
      ∧ dispatches post = triggerReplay a trigger :: queue.map (queuedReplay a)
      ∧ ∀ rq ∈ dispatches post, rq.authorization = some ("Bearer " ++ a) := by
  refine ⟨Ev.readKey "refreshToken" :: Ev.refreshCall tok ::
      ([Ev.persist "authToken" a, Ev.persist "refreshToken" r]
        ++ queue.map (fun x => Ev.resolveQueued x.id a)),
    Ev.dispatch (triggerReplay a trigger)
      :: queue.map (fun x => Ev.dispatch (queuedReplay a x)),
    ?_, ?_, ?_, ?_, ?_, ?_⟩
  · simp [refreshBranch, htok, refreshSuccessTrace]
  · simp [dispatches, List.filterMap_append, List.filterMap_cons,
      Function.comp_def, filterMap_map_red, filterMap_someFun, filterMap_noneFun]
  · simp [persists, List.filterMap_append, List.filterMap_cons,
      Function.comp_def, filterMap_map_red, filterMap_someFun, filterMap_noneFun]
  · simp [persists, List.filterMap_append, List.filterMap_cons,
      Function.comp_def, filterMap_map_red, filterMap_someFun, filterMap_noneFun]
  · simp [dispatches, List.filterMap_append, List.filterMap_cons,
      Function.comp_def, filterMap_map_red, filterMap_someFun, filterMap_noneFun]
  · intro rq hrq
    simp [dispatches, List.filterMap_cons, Function.comp_def,
      filterMap_map_red, filterMap_someFun, filterMap_noneFun] at hrq
    rcases hrq with h | ⟨x, _, h⟩
    · rw [h]; simp [triggerReplay]
    · rw [← h]; simp [queuedReplay, ha]

/-- Witness for C4 at a concrete one-queued-request cycle. -/
theorem persistBeforeReplay_witness :
    ∃ pre post,
      refreshBranch [⟨2, some "/b", none, false⟩] ⟨1, some "/a", none, true⟩
          (some "R0") (RefreshCallResult.success "T2" "R2") none
        = pre ++ post
      ∧ dispatches pre = []
      ∧ persists pre = [("authToken", "T2"), ("refreshToken", "R2")]
      ∧ persists post = []
      ∧ dispatches post = triggerReplay "T2" ⟨1, some "/a", none, true⟩
          :: [⟨2, some "/b", none, false⟩].map (queuedReplay "T2")
      ∧ ∀ rq ∈ dispatches post, rq.authorization = some ("Bearer " ++ "T2") :=
  persistBeforeReplay [⟨2, some "/b", none, false⟩] ⟨1, some "/a", none, true⟩
    "R0" "T2" "R2" none (by decide) (by decide)

/-- C10: only the triggering request is marked `_retry`.  A request coalesced
into the queue is replayed after a successful refresh with its `_retry` flag
still unset, so a 401 on that replay re-enters the refresh flow — starting a
fresh refresh from the settled state, or enqueueing if one is already in
flight — instead of being mapped to a terminal error. -/
theorem coalescedReplay_unmarked (queue : List Req) (trigger : Req)
    (tok a r : String) (data : Option ApiErrorResponse) (q2 : List Req)
    (htok : tok ≠ "") (ha : a ≠ "")
    (hq : ∀ x ∈ queue, x.retryFlag = false) :
    dispatches (refreshBranch queue { trigger with retryFlag := true }
        (some tok) (RefreshCallResult.success a r) data)
      = triggerReplay a { trigger with retryFlag := true }
          :: queue.map (queuedReplay a)
    ∧ (triggerReplay a { trigger with retryFlag := true }).retryFlag = true
    ∧ (∀ x ∈ queue, (queuedReplay a x).retryFlag = false)
    ∧ (∀ x ∈ queue,
        (responseErrorInterceptor refreshSettledState
            (mk401 data (queuedReplay a x))).2
          = Decision.refreshIt { queuedReplay a x with retryFlag := true })
    ∧ (∀ x ∈ queue,
        (responseErrorInterceptor ⟨true, q2⟩ (mk401 data (queuedReplay a x))).2
          = Decision.queueIt) := by
  refine ⟨?_, rfl, ?_, ?_, ?_⟩
  · simp [refreshBranch, htok, refreshSuccessTrace, dispatches,
      List.filterMap_append, List.filterMap_cons, Function.comp_def,
      filterMap_map_red, filterMap_someFun, filterMap_noneFun]
  · intro x hx; simp [queuedReplay, ha, hq x hx]
  · intro x hx
    have hxf : (queuedReplay a x).retryFlag = false := by
      simp [queuedReplay, ha, hq x hx]
    simp [responseErrorInterceptor, mk401, refreshSettledState, hxf]
  · intro x hx
    have hxf : (queuedReplay a x).retryFlag = false := by
      simp [queuedReplay, ha, hq x hx]
    simp [responseErrorInterceptor, mk401, hxf]

/-- Witness for C10: the concrete coalesced request replays unmarked and its
second 401 starts a fresh refresh cycle. -/
theorem coalescedReplay_unmarked_witness :
    (responseErrorInterceptor refreshSettledState
        (mk401 none (queuedReplay "T2" ⟨2, some "/b", none, false⟩))).2
      = Decision.refreshIt
          { queuedReplay "T2" ⟨2, some "/b", none, false⟩ with retryFlag := true } :=
  (coalescedReplay_unmarked [⟨2, some "/b", none, false⟩] ⟨1, some "/a", none, false⟩
    "R0" "T2" "R2" none [] (by decide) (by decide)
    (by intro x hx; simp at hx; rw [hx])).2.2.2.1
    ⟨2, some "/b", none, false⟩ (by simp)

/-- No trace event writes the session. -/
theorem applyEv_session (w : World) (e : Ev) : (applyEv w e).session = w.session := by
  cases e <;> simp [applyEv] <;> split_ifs <;> rfl

/-- Running any trace leaves the session exactly as it was. -/
theorem runTrace_session (tr : List Ev) :
    ∀ w : World, (runTrace w tr).session = w.session := by
  induction tr with
  | nil => intro w; rfl
  | cons e rest ih =>
    intro w
    simp only [runTrace, List.foldl_cons] at *
    rw [ih (applyEv w e), applyEv_session]

/-- Traces compose. -/
theorem runTrace_append (a b : List Ev) (w : World) :
    runTrace w (a ++ b) = runTrace (runTrace w a) b := by
  simp [runTrace, List.foldl_append]

/-- Rejecting queued continuations touches no storage. -/
theorem runTrace_rejectMap (e : JsValue) (q : List Req) :
    ∀ w : World, runTrace w (q.map fun r => Ev.rejectQueued r.id e) = w := by
  induction q with
  | nil => intro w; rfl
  | cons x rest ih =>
    intro w
    simp only [List.map_cons, runTrace, List.foldl_cons] at *
    exact ih w

/-- C2 counterexample: with one queued request and a refresh network call
that fails with the transport's raw error, the queued caller is rejected with
that raw error — which is not Unauthorized-kind — while the trigger gets a
distinct `UnauthorizedError`; the claimed uniform-Unauthorized failure is
false on this input. -/
theorem uniformFailure_counterexample :
    uniformUnauthorizedFailure (refreshBranch [⟨1, some "/a", none, false⟩]
        ⟨0, some "/b", none, true⟩ (some "R0")
        (RefreshCallResult.failure (JsValue.verror "connection reset")) none) = false
    ∧ (queuedRejections (refreshBranch [⟨1, some "/a", none, false⟩]
        ⟨0, some "/b", none, true⟩ (some "R0")
        (RefreshCallResult.failure (JsValue.verror "connection reset")) none)).map
        Prod.snd
      = [JsValue.verror "connection reset"]
    ∧ isUnauthorizedKind (JsValue.verror "connection reset") = false := by
  refine ⟨?_, ?_, ?_⟩ <;> rfl

/-- C2 amended: when the refresh fails, the triggering request is rejected
with `UnauthorizedError('Session expired. Please login again.')` whose cause
is the refresh failure; every queued continuation is rejected with one and
the same error — the refresh failure cause itself: the synthetic
`UnauthorizedError('No refresh token available')` when no refresh token was
stored, but the refresh call's raw error when the network call failed. -/
theorem refreshFailure_outcomes (queue : List Req) (trigger : Req) (tok : String)
    (raw : JsValue) (data : Option ApiErrorResponse) (call : RefreshCallResult)
    (htok : tok ≠ "") :
    (queuedRejections (refreshBranch queue trigger none call data)
        = queue.map (fun x => (x.id,
            UnauthorizedError "No refresh token available" none JsValue.vundefined))
      ∧ triggerSettlements (refreshBranch queue trigger none call data)
        = [UnauthorizedError "Session expired. Please login again." data
            (UnauthorizedError "No refresh token available" none JsValue.vundefined)])
    ∧ (queuedRejections (refreshBranch queue trigger (some tok)
          (RefreshCallResult.failure raw) data)
        = queue.map (fun x => (x.id, raw))
      ∧ triggerSettlements (refreshBranch queue trigger (some tok)
          (RefreshCallResult.failure raw) data)
        = [UnauthorizedError "Session expired. Please login again." data raw]) := by
  refine ⟨⟨?_, ?_⟩, ?_, ?_⟩ <;>
    simp [refreshBranch, htok, refreshFailureTrace, queuedRejections,
      triggerSettlements, List.filterMap_append, List.filterMap_cons,
      Function.comp_def, filterMap_map_red, filterMap_someFun, filterMap_noneFun]

/-- Witness for the amended C2 at a concrete failing refresh. -/
theorem refreshFailure_outcomes_witness :
    queuedRejections (refreshBranch [⟨1, some "/a", none, false⟩]
        ⟨0, some "/b", none, true⟩ (some "R0")
        (RefreshCallResult.failure (JsValue.verror "connection reset")) none)
      = ([⟨1, some "/a", none, false⟩] : List Req).map
          (fun x => (x.id, JsValue.verror "connection reset")) :=
  (refreshFailure_outcomes [⟨1, some "/a", none, false⟩] ⟨0, some "/b", none, true⟩
    "R0" (JsValue.verror "connection reset") none
    (RefreshCallResult.success "x" "y") (by decide)).2.1

/-- C3 counterexample: running the failure path over a world whose session is
authenticated clears all four stored keys but leaves the session untouched —
Session State is not reset to unauthenticated/no-user by the pipeline. -/
theorem irrecoverableFailure_counterexample :
    (runTrace ⟨⟨some "T0", some "R0", some "u0", some true⟩,
        ⟨true, some ⟨"1", "a@b.com", none⟩⟩⟩
      (refreshBranch [] ⟨0, some "/b", none, true⟩ (some "R0")
        (RefreshCallResult.failure (JsValue.verror "refresh 401")) none)).store
      = ⟨none, none, none, none⟩
    ∧ (runTrace ⟨⟨some "T0", some "R0", some "u0", some true⟩,
        ⟨true, some ⟨"1", "a@b.com", none⟩⟩⟩
      (refreshBranch [] ⟨0, some "/b", none, true⟩ (some "R0")
        (RefreshCallResult.failure (JsValue.verror "refresh 401")) none)).session
      = ⟨true, some ⟨"1", "a@b.com", none⟩⟩
    ∧ decide ((runTrace ⟨⟨some "T0", some "R0", some "u0", some true⟩,
        ⟨true, some ⟨"1", "a@b.com", none⟩⟩⟩
      (refreshBranch [] ⟨0, some "/b", none, true⟩ (some "R0")
        (RefreshCallResult.failure (JsValue.verror "refresh 401")) none)).session
        = (⟨false, none⟩ : Session)) = false := by
  refine ⟨rfl, rfl, by decide⟩

/-- C3 amended: after an irrecoverable refresh failure (no stored refresh
token, or a failing refresh call) the trace ends with the trigger's
rejection, and at that point the Credential Store no longer contains any of
`authToken`, `refreshToken`, `user`, `isLoggedIn`; Session State, however, is
left exactly as it was — the pipeline performs no session reset. -/
theorem irrecoverableFailure_poststate (w : World) (queue : List Req)
    (trigger : Req) (tok : String) (raw : JsValue)
    (data : Option ApiErrorResponse) (call : RefreshCallResult) (htok : tok ≠ "") :
    (∃ pre e, refreshBranch queue trigger none call data
        = pre ++ [Ev.settleTrigger e]
      ∧ (runTrace w pre).store = ⟨none, none, none, none⟩
      ∧ (runTrace w (refreshBranch queue trigger none call data)).session
          = w.session)
    ∧ (∃ pre e, refreshBranch queue trigger (some tok)
          (RefreshCallResult.failure raw) data
        = pre ++ [Ev.settleTrigger e]
      ∧ (runTrace w pre).store = ⟨none, none, none, none⟩
      ∧ (runTrace w (refreshBranch queue trigger (some tok)
          (RefreshCallResult.failure raw) data)).session = w.session) := by
  constructor
  · refine ⟨Ev.readKey "refreshToken" ::
      ((queue.map fun r => Ev.rejectQueued r.id
          (UnauthorizedError "No refresh token available" none JsValue.vundefined))
        ++ [Ev.removeKey "authToken", Ev.removeKey "refreshToken",
            Ev.removeKey "user", Ev.removeKey "isLoggedIn"]),
      UnauthorizedError "Session expired. Please login again." data
        (UnauthorizedError "No refresh token available" none JsValue.vundefined),
      ?_, ?_, runTrace_session _ w⟩
    · simp [refreshBranch, refreshFailureTrace]
    · have hw : runTrace w (Ev.readKey "refreshToken" ::
          (queue.map fun r => Ev.rejectQueued r.id
            (UnauthorizedError "No refresh token available" none JsValue.vundefined)))
          = w := by
        simp only [runTrace, List.foldl_cons]
        exact runTrace_rejectMap _ queue w
      rw [show (Ev.readKey "refreshToken" ::
          ((queue.map fun r => Ev.rejectQueued r.id
              (UnauthorizedError "No refresh token available" none JsValue.vundefined))
            ++ [Ev.removeKey "authToken", Ev.removeKey "refreshToken",
                Ev.removeKey "user", Ev.removeKey "isLoggedIn"]))
          = (Ev.readKey "refreshToken" ::
              (queue.map fun r => Ev.rejectQueued r.id
                (UnauthorizedError "No refresh token available" none JsValue.vundefined)))
            ++ [Ev.removeKey "authToken", Ev.removeKey "refreshToken",
                Ev.removeKey "user", Ev.removeKey "isLoggedIn"] by simp,
        runTrace_append, hw]
      rfl
  · refine ⟨Ev.readKey "refreshToken" :: Ev.refreshCall tok ::
      ((queue.map fun r => Ev.rejectQueued r.id raw)
        ++ [Ev.removeKey "authToken", Ev.removeKey "refreshToken",
            Ev.removeKey "user", Ev.removeKey "isLoggedIn"]),
      UnauthorizedError "Session expired. Please login again." data raw,
      ?_, ?_, runTrace_session _ w⟩
    · simp [refreshBranch, htok, refreshFailureTrace]
    · have hw : runTrace w (Ev.readKey "refreshToken" :: Ev.refreshCall tok ::
          (queue.map fun r => Ev.rejectQueued r.id raw)) = w := by
        simp only [runTrace, List.foldl_cons]
        exact runTrace_rejectMap raw queue w
      rw [show (Ev.readKey "refreshToken" :: Ev.refreshCall tok ::
          ((queue.map fun r => Ev.rejectQueued r.id raw)
            ++ [Ev.removeKey "authToken", Ev.removeKey "refreshToken",
                Ev.removeKey "user", Ev.removeKey "isLoggedIn"]))
          = (Ev.readKey "refreshToken" :: Ev.refreshCall tok ::
              (queue.map fun r => Ev.rejectQueued r.id raw))
            ++ [Ev.removeKey "authToken", Ev.removeKey "refreshToken",
                Ev.removeKey "user", Ev.removeKey "isLoggedIn"] by simp,
        runTrace_append, hw]
      rfl

/-- Witness for the amended C3 at a concrete failing refresh. -/
theorem irrecoverableFailure_poststate_witness :
    ∃ pre e, refreshBranch [] ⟨0, some "/b", none, true⟩ (some "R0")
        (RefreshCallResult.failure (JsValue.verror "refresh 401")) none
        = pre ++ [Ev.settleTrigger e]
      ∧ (runTrace ⟨⟨some "T0", some "R0", some "u0", some true⟩,
          ⟨true, some ⟨"1", "a@b.com", none⟩⟩⟩ pre).store
        = ⟨none, none, none, none⟩
      ∧ (runTrace ⟨⟨some "T0", some "R0", some "u0", some true⟩,
          ⟨true, some ⟨"1", "a@b.com", none⟩⟩⟩
          (refreshBranch [] ⟨0, some "/b", none, true⟩ (some "R0")
            (RefreshCallResult.failure (JsValue.verror "refresh 401")) none)).session
        = (⟨⟨some "T0", some "R0", some "u0", some true⟩,
            ⟨true, some ⟨"1", "a@b.com", none⟩⟩⟩ : World).session :=
  (irrecoverableFailure_poststate
    ⟨⟨some "T0", some "R0", some "u0", some true⟩,
      ⟨true, some ⟨"1", "a@b.com", none⟩⟩⟩
    [] ⟨0, some "/b", none, true⟩ "R0" (JsValue.verror "refresh 401") none
    (RefreshCallResult.success "x" "y") (by decide)).2

end ExpoApi
